import Mathlib

/-!
Verification of the lima SPICE display/clipboard coordination layer.

Strings from the Go source are modelled as `List Char` (`Str`), so that
parsing and message construction stay executable and decidable.  System
probes (filesystem checks, `exec.LookPath`, package-database queries,
service-manager queries) are modelled as boolean oracles collected in an
environment record `Env`; each Go function that consults the system becomes
a pure Lean function of the environment.  Functions that perform actions
(package installs, service enable/start) additionally return the trace of
actions they performed, so that "no side effects" and "which strategies
were attempted" are provable statements.
-/

namespace Lima

/-- Equality of `Except` results is decidable when both components are; used
to evaluate the embedded functions on concrete inputs. -/
instance {ε α : Type} [DecidableEq ε] [DecidableEq α] : DecidableEq (Except ε α) := fun x y =>
  match x, y with
  | Except.ok a, Except.ok b =>
    if h : a = b then Decidable.isTrue (by rw [h])
    else Decidable.isFalse (fun he => h (by cases he; rfl))
  | Except.error a, Except.error b =>
    if h : a = b then Decidable.isTrue (by rw [h])
    else Decidable.isFalse (fun he => h (by cases he; rfl))
  | Except.ok _, Except.error _ => Decidable.isFalse (fun he => Except.noConfusion he)
  | Except.error _, Except.ok _ => Decidable.isFalse (fun he => Except.noConfusion he)

/-- Guest-side strings, modelled as lists of characters. -/
abbrev Str := List Char

/-- Go's `strings.TrimPrefix`: drop `pre` from the front of `s` when it is
a prefix, otherwise return `s` unchanged. -/
def trimPrefixStr (s pre : Str) : Str :=
  if pre.isPrefixOf s then s.drop pre.length else s

/-- Go's `strings.TrimSpace` (over our char-list strings): remove leading
and trailing whitespace. -/
def trimSpace (s : Str) : Str :=
  ((s.dropWhile Char.isWhitespace).reverse.dropWhile Char.isWhitespace).reverse

/-- Go's `strings.SplitN(s, sep, 2)` for a one-character separator, returning
the two pieces when the separator occurs (Go returns a 2-element slice), and
`none` when it does not (Go returns a 1-element slice, which the caller
skips). -/
def splitN2 (s : Str) (sep : Char) : Option (Str × Str) :=
  if sep ∈ s then
    some (s.takeWhile (· ≠ sep), (s.dropWhile (· ≠ sep)).drop 1)
  else none

/-- Go's `strings.Join(parts, sep)`. -/
def joinWith (sep : Str) : List Str → Str
  | [] => []
  | [x] => x
  | x :: y :: xs => x ++ sep ++ joinWith sep (y :: xs)

/-- Go's `strings.Contains(s, pat)`: some contiguous run of `s` equals
`pat`. -/
def strContains (pat : Str) : Str → Bool
  | [] => pat.isEmpty
  | c :: rest => pat.isPrefixOf (c :: rest) || strContains pat rest

/-! ## Environment: system-probe oracles

`SysState` gives the outcomes of the two "is the agent process running"
probes at one moment in time; the guest state can change out-of-band, so the
environment carries one `SysState` for the initial detection and one for the
re-verification performed after `systemctl start`. -/

/-- Outcome of the two running-state probes at one point in time:
`systemctl is-active spice-vdagentd` reporting `active`, and
`pgrep -x spice-vdagentd` finding a process. -/
structure SysState where
  systemctlActive : Bool
  pgrepFound : Bool
deriving DecidableEq, Repr

/-- Oracles for every system interaction in `spiceservice_linux.go`:
filesystem checks, `exec.LookPath`, package-database queries, the install
commands themselves, and the service enable/start commands. -/
structure Env where
  /-- `/dev` has an entry whose name starts with `vport`. -/
  devHasVportEntry : Bool
  /-- `/sys/class/virtio-ports` exists and is non-empty. -/
  sysVirtioPortsNonEmpty : Bool
  /-- `exec.LookPath name` succeeds. -/
  lookPath : Str → Bool
  /-- `dpkg -l spice-vdagent` exits 0. -/
  dpkgQueryOk : Bool
  /-- `rpm -q spice-vdagent` exits 0. -/
  rpmQueryOk : Bool
  /-- Running-state probes at initial detection time. -/
  running0 : SysState
  /-- `<mgr> install ... spice-vdagent` exits 0, per package-manager command. -/
  installOk : Str → Bool
  /-- `systemctl enable spice-vdagentd` exits 0. -/
  enableOk : Bool
  /-- `systemctl start spice-vdagentd` exits 0. -/
  startOk : Bool
  /-- Running-state probes at the re-verification after start. -/
  runningAfterStart : SysState

/-! ## Detection (`DetectSpiceStatus` and helpers) -/

/-- `SpiceStatus` from `spiceservice_linux.go`. -/
structure SpiceStatus where
  AgentInstalled : Bool
  AgentRunning : Bool
  VPortExists : Bool
  ClipboardReady : Bool
  ErrorMessage : Str
deriving DecidableEq, Repr

/-- `checkVirtioPort`: a `/dev/vport*` device exists, or
`/sys/class/virtio-ports` is non-empty. -/
def checkVirtioPort (env : Env) : Bool :=
  env.devHasVportEntry || env.sysVirtioPortsNonEmpty

/-- `checkSpiceInstalled`: the `spice-vdagentd` binary resolves on the search
path, or `dpkg` reports the package, or `rpm` reports the package. -/
def checkSpiceInstalled (env : Env) : Bool :=
  env.lookPath "spice-vdagentd".data || env.dpkgQueryOk || env.rpmQueryOk

/-- `checkSpiceRunning`: `systemctl is-active` reports `active`, or `pgrep`
finds the process. -/
def checkSpiceRunning (st : SysState) : Bool :=
  st.systemctlActive || st.pgrepFound

/-- Reason text used by `buildErrorMessage` when the virtio port is missing. -/
def msgTransport : Str := "virtio console port not found (host SPICE not configured)".data

/-- Reason text used by `buildErrorMessage` when the agent is not installed. -/
def msgInstalled : Str := "spice-vdagent package not installed".data

/-- Reason text used by `buildErrorMessage` when the agent is not running. -/
def msgRunning : Str := "spice-vdagentd service not running".data

/-- Header of the message produced by `buildErrorMessage`. -/
def errPrefixStr : Str := "SPICE clipboard not ready: ".data

/-- The `reasons` slice accumulated by `buildErrorMessage`: one entry per
failing condition, in source order.  Note the running reason is guarded by
`status.AgentInstalled && !status.AgentRunning`, exactly as in the code. -/
def reasonsFor (status : SpiceStatus) : List Str :=
  (if status.VPortExists = false then [msgTransport] else []) ++
  (if status.AgentInstalled = false then [msgInstalled] else []) ++
  (if status.AgentInstalled && !status.AgentRunning then [msgRunning] else [])

/-- `buildErrorMessage`: empty when no reason applies, otherwise the header
followed by the reasons joined with `"; "`. -/
def buildErrorMessage (status : SpiceStatus) : Str :=
  let reasons := reasonsFor status
  if reasons = [] then [] else errPrefixStr ++ joinWith "; ".data reasons

/-- Core of `DetectSpiceStatus` as a function of the three probe outcomes:
the running check is only evaluated when the installed check succeeded, the
composite flag is the conjunction, and the error message is generated only
when not ready. -/
def detectCore (vport installed runCheck : Bool) : SpiceStatus :=
  let running := if installed then runCheck else false
  let ready := vport && installed && running
  let base : SpiceStatus :=
    { AgentInstalled := installed
      AgentRunning := running
      VPortExists := vport
      ClipboardReady := ready
      ErrorMessage := [] }
  if ready then base else { base with ErrorMessage := buildErrorMessage base }

/-- `DetectSpiceStatus`: evaluate the three probes against the environment
and assemble the status. -/
def DetectSpiceStatus (env : Env) : SpiceStatus :=
  detectCore (checkVirtioPort env) (checkSpiceInstalled env)
    (checkSpiceRunning env.running0)

/-! ## Repair (`EnsureSpiceAgent` and helpers)

Each repair function additionally returns the trace of externally visible
actions it performed, so that absence of side effects is a provable
statement. -/

/-- Externally visible actions of the repair sequence. -/
inductive Action where
  /-- Running the install command of the named package manager. -/
  | installAttempt (mgr : Str)
  /-- Running `systemctl enable spice-vdagentd`. -/
  | enableService
  /-- Running `systemctl start spice-vdagentd`. -/
  | startService
deriving DecidableEq, Repr

/-- One entry of the `packageManagers` table in `installSpiceAgent`. -/
structure PkgMgr where
  cmd : Str
  args : List Str
  pkgName : Str
deriving DecidableEq, Repr

/-- The ordered `packageManagers` table from `installSpiceAgent`. -/
def packageManagers : List PkgMgr :=
  [ ⟨"apt-get".data, ["install".data, "-y".data], "spice-vdagent".data⟩,
    ⟨"dnf".data, ["install".data, "-y".data], "spice-vdagent".data⟩,
    ⟨"yum".data, ["install".data, "-y".data], "spice-vdagent".data⟩,
    ⟨"zypper".data, ["install".data, "-y".data], "spice-vdagent".data⟩,
    ⟨"pacman".data, ["-S".data, "--noconfirm".data], "spice-vdagent".data⟩ ]

/-- Error returned by `installSpiceAgent` after the loop exhausts the table:
`"no supported package manager found or installation failed"`. -/
inductive InstallErr where
  | noManagerOrInstallFailed
deriving DecidableEq, Repr

/-- Errors returned by `startSpiceService`: the start command itself failed,
or it succeeded but the post-start re-verification still found the service
not running (`"service started but not running"`). -/
inductive StartErr where
  | startCmdFailed
  | verifyMismatch
deriving DecidableEq, Repr

/-- Errors returned by `EnsureSpiceAgent`, tagged with the failing phase as
the `fmt.Errorf` wrappers do. -/
inductive EnsureErr where
  /-- `"virtio console port not available (host SPICE not configured)"`. -/
  | transportAbsent
  /-- `"failed to install spice-vdagent: %w"`. -/
  | installFailed (e : InstallErr)
  /-- `"failed to start spice-vdagentd: %w"`. -/
  | startFailed (e : StartErr)
deriving DecidableEq, Repr

/-- The loop of `installSpiceAgent` over the remaining package managers: a
manager whose probe executable does not resolve is skipped without an
attempt; a manager whose probe resolves has its install command run (an
`installAttempt` action); when that command fails, the loop `continue`s to
the next manager; when it succeeds, the loop returns success. -/
def installLoop (env : Env) : List PkgMgr → Except InstallErr Unit × List Action
  | [] => (Except.error InstallErr.noManagerOrInstallFailed, [])
  | pm :: rest =>
    if env.lookPath pm.cmd then
      if env.installOk pm.cmd then
        (Except.ok (), [Action.installAttempt pm.cmd])
      else
        let r := installLoop env rest
        (r.1, Action.installAttempt pm.cmd :: r.2)
    else installLoop env rest

/-- `installSpiceAgent`: run the loop over the fixed `packageManagers`
table. -/
def installSpiceAgent (env : Env) : Except InstallErr Unit × List Action :=
  installLoop env packageManagers

/-- `startSpiceService`: `systemctl enable` (failure only logged), then
`systemctl start` (failure fatal), then after a settle delay re-verify with
`checkSpiceRunning`; success of the command without the process running is
the distinct verification-mismatch error. -/
def startSpiceService (env : Env) : Except StartErr Unit × List Action :=
  if env.startOk = false then
    (Except.error StartErr.startCmdFailed, [Action.enableService, Action.startService])
  else if checkSpiceRunning env.runningAfterStart = false then
    (Except.error StartErr.verifyMismatch, [Action.enableService, Action.startService])
  else
    (Except.ok (), [Action.enableService, Action.startService])

/-- The start phase of `EnsureSpiceAgent` (lines 78–87): run
`startSpiceService` only when the detected status reports the agent not
running. -/
def ensureStartPhase (env : Env) (status : SpiceStatus) (acc : List Action) :
    Except EnsureErr Unit × List Action :=
  if status.AgentRunning = false then
    match startSpiceService env with
    | (Except.error e, acts) => (Except.error (EnsureErr.startFailed e), acc ++ acts)
    | (Except.ok _, acts) => (Except.ok (), acc ++ acts)
  else (Except.ok (), acc)

/-- `EnsureSpiceAgent`: detect; return immediately when ready; fail with the
transport-absent error when the virtio port is missing; otherwise install
when not installed (failure aborts), then start when not running. -/
def EnsureSpiceAgent (env : Env) : Except EnsureErr Unit × List Action :=
  let status := DetectSpiceStatus env
  if status.ClipboardReady then (Except.ok (), [])
  else if status.VPortExists = false then
    (Except.error EnsureErr.transportAbsent, [])
  else if status.AgentInstalled = false then
    match installSpiceAgent env with
    | (Except.error e, acts) => (Except.error (EnsureErr.installFailed e), acts)
    | (Except.ok _, acts) => ensureStartPhase env status acts
  else ensureStartPhase env status []

/-! ## Connection codec (`GetConnectionInfo`, `buildSpiceURI`) -/

/-- `Connection` from the spiceclient package. -/
structure Connection where
  Host : Str
  Port : Str
  Password : Str
  UnixPath : Str
  Audio : Bool
deriving DecidableEq, Repr

/-- The zero `Connection{}` value. -/
def emptyConn : Connection :=
  { Host := [], Port := [], Password := [], UnixPath := [], Audio := false }

/-- The literal `"spice+unix://"`. -/
def unixSchemeStr : Str := "spice+unix://".data

/-- The literal `"spice"`. -/
def spiceTokStr : Str := "spice".data

/-- The loopback default host `"127.0.0.1"`. -/
def defaultHost : Str := "127.0.0.1".data

/-- The default port `"5900"`. -/
def defaultPort : Str := "5900".data

/-- Parse failure of `GetConnectionInfo`:
`"invalid SPICE display string: %s"`. -/
inductive ParseErr where
  | invalidDisplayString (s : Str)
deriving DecidableEq, Repr

/-- Failure of `buildSpiceURI`: `"host and port required for TCP connection"`. -/
inductive BuildErr where
  | hostPortRequired
deriving DecidableEq, Repr

/-- The body of the option loop in `GetConnectionInfo`: skip the bare
protocol token, skip parts without `=`, trim both sides, and assign the
recognized keys `port`, `addr`, `password`; unrecognized keys are ignored. -/
def applyOpt (c : Connection) (part : Str) : Connection :=
  if part = spiceTokStr then c
  else
    match splitN2 part '=' with
    | none => c
    | some kv =>
      let key := trimSpace kv.1
      let value := trimSpace kv.2
      if key = "port".data then { c with Port := value }
      else if key = "addr".data then { c with Host := value }
      else if key = "password".data then { c with Password := value }
      else c

/-- The option loop of `GetConnectionInfo` over all comma-separated parts. -/
def applyOpts (c : Connection) (parts : List Str) : Connection :=
  parts.foldl applyOpt c

/-- `GetConnectionInfo`: the unix-socket form strips the scheme into
`UnixPath`; otherwise the string must start with the protocol token, the
defaults are set, and the comma-separated options are applied. -/
def GetConnectionInfo (s : Str) : Except ParseErr Connection :=
  if unixSchemeStr.isPrefixOf s then
    Except.ok { emptyConn with UnixPath := trimPrefixStr s unixSchemeStr }
  else if spiceTokStr.isPrefixOf s then
    Except.ok (applyOpts { emptyConn with Host := defaultHost, Port := defaultPort }
      (s.splitOn ','))
  else Except.error (ParseErr.invalidDisplayString s)

/-- `buildSpiceURI`: unix-socket descriptors become
`spice+unix://<path>`; network descriptors require host and port and become
`spice://host:port` with an optional `?password=` query. -/
def buildSpiceURI (c : Connection) : Except BuildErr Str :=
  if c.UnixPath ≠ [] then Except.ok (unixSchemeStr ++ c.UnixPath)
  else if c.Host = [] ∨ c.Port = [] then Except.error BuildErr.hostPortRequired
  else
    Except.ok ("spice://".data ++ c.Host ++ ":".data ++ c.Port ++
      (if c.Password ≠ [] then "?password=".data ++ c.Password else []))

/-- The key a comma-separated option part would assign, mirroring the loop
in `GetConnectionInfo`: the bare protocol token and parts without `=` carry
no key; otherwise the key is the trimmed text left of the first `=`. -/
def partKey (part : Str) : Option Str :=
  if part = spiceTokStr then none
  else (splitN2 part '=').map (fun kv => trimSpace kv.1)

/-- The value a comma-separated option part would assign (trimmed text right
of the first `=`), when it has one. -/
def partVal (part : Str) : Option Str :=
  if part = spiceTokStr then none
  else (splitN2 part '=').map (fun kv => trimSpace kv.2)

/-- The scenario input `"spice,addr=0.0.0.0,port=5931"`. -/
def scenarioStr : Str := "spice,addr=0.0.0.0,port=5931".data

/-! ## Viewer resolution (`FindViewer`) -/

/-- The error message of `FindViewer` when no candidate resolves; it carries
the install hints (`install remote-viewer or spicy`). -/
def notFoundMsg : Str := "no SPICE viewer found, install remote-viewer or spicy".data

/-- The platform-specific ordered candidate lists of `FindViewer`; `none`
for an unsupported platform. -/
def viewerCandidates (goos : Str) : Option (List Str) :=
  if goos = "darwin".data then
    some ["remote-viewer".data, "spicy".data]
  else if goos = "linux".data then
    some ["remote-viewer".data, "spicy".data, "virt-viewer".data]
  else if goos = "windows".data then
    some ["remote-viewer.exe".data, "spicy.exe".data, "virt-viewer.exe".data]
  else none

/-- The candidate loop of `FindViewer`: return the resolved path of the
first candidate `exec.LookPath` resolves; the not-found error only falls out
after the whole list is exhausted. -/
def findLoop (look : Str → Option Str) : List Str → Except Str Str
  | [] => Except.error notFoundMsg
  | v :: rest =>
    match look v with
    | some path => Except.ok path
    | none => findLoop look rest

/-- `FindViewer`, with `exec.LookPath` abstracted as `look` (returning the
resolved path on success). -/
def FindViewer (goos : Str) (look : Str → Option Str) : Except Str Str :=
  match viewerCandidates goos with
  | some cs => findLoop look cs
  | none => Except.error ("unsupported platform: ".data ++ goos)

/-! ## Host Display Session Controller

Modelled from the spec: the native window controller
(`StartGraphicApplication` / `HasGUIWindow` / `BringWindowToFront` /
window-close callback) lives in the external vz library; this repository
contains only its design documentation and its callers, so the state machine
of spec §4.5 is embedded directly. -/

/-- Modelled from the spec: `DisplaySessionState`, the lifecycle state owned
by the Host Display Session Controller. -/
inductive DisplaySessionState where
  | uninitialized
  | created
  | visible
  | hidden
  | stopped
deriving DecidableEq, Repr

/-- Modelled from the spec: the SessionStateError taxonomy (controller
misuse). -/
inductive SessionError where
  | alreadyStarted
  | notInitialized
deriving DecidableEq, Repr

namespace SessionController

/-- Modelled from the spec: `Start(config)` is only legal from
Uninitialized (producing a created session) and fails with
AlreadyStartedError when called again on the same controller instance,
including after the terminal Stopped state. -/
def start : DisplaySessionState → Except SessionError DisplaySessionState
  | DisplaySessionState.uninitialized => Except.ok DisplaySessionState.created
  | _ => Except.error SessionError.alreadyStarted

/-- Modelled from the spec: `BringToForeground()` is legal from Created,
Visible or Hidden (making the window visible; a no-op success when already
visible) and fails with NotInitializedError when no session exists. -/
def bringToForeground : DisplaySessionState → Except SessionError DisplaySessionState
  | DisplaySessionState.created => Except.ok DisplaySessionState.visible
  | DisplaySessionState.visible => Except.ok DisplaySessionState.visible
  | DisplaySessionState.hidden => Except.ok DisplaySessionState.visible
  | _ => Except.error SessionError.notInitialized

/-- Modelled from the spec: `HasSession()` is true for Created, Visible and
Hidden, false for Uninitialized and Stopped. -/
def hasSession : DisplaySessionState → Bool
  | DisplaySessionState.created => true
  | DisplaySessionState.visible => true
  | DisplaySessionState.hidden => true
  | _ => false

/-- Modelled from the spec: the externally triggered close callback
transitions unconditionally to the terminal Stopped state (and stops the
machine). -/
def close (_ : DisplaySessionState) : DisplaySessionState :=
  DisplaySessionState.stopped

end SessionController

/-! ## Concrete environments used to evaluate the embedded functions -/

/-- Environment in which the virtio port exists, the agent is not installed,
`apt-get` resolves but its install command fails, and `dnf` resolves and
succeeds; the service starts and runs afterwards. -/
def envInstallFallback : Env :=
  { devHasVportEntry := true
    sysVirtioPortsNonEmpty := false
    lookPath := fun s => s == "apt-get".data || s == "dnf".data
    dpkgQueryOk := false
    rpmQueryOk := false
    running0 := ⟨false, false⟩
    installOk := fun s => s == "dnf".data
    enableOk := true
    startOk := true
    runningAfterStart := ⟨true, false⟩ }

/-- Environment with the transport present but the agent neither installed
nor running: the scenario of spec §8.9. -/
def envAgentMissing : Env :=
  { devHasVportEntry := true
    sysVirtioPortsNonEmpty := false
    lookPath := fun _ => false
    dpkgQueryOk := false
    rpmQueryOk := false
    running0 := ⟨false, false⟩
    installOk := fun _ => false
    enableOk := true
    startOk := true
    runningAfterStart := ⟨false, false⟩ }

/-- Environment in which every probe succeeds: transport present, agent
installed and running. -/
def envReady : Env :=
  { devHasVportEntry := true
    sysVirtioPortsNonEmpty := true
    lookPath := fun _ => true
    dpkgQueryOk := true
    rpmQueryOk := true
    running0 := ⟨true, true⟩
    installOk := fun _ => true
    enableOk := true
    startOk := true
    runningAfterStart := ⟨true, true⟩ }

/-- Environment with no virtio transport but everything else available. -/
def envNoTransport : Env :=
  { devHasVportEntry := false
    sysVirtioPortsNonEmpty := false
    lookPath := fun _ => true
    dpkgQueryOk := true
    rpmQueryOk := true
    running0 := ⟨true, true⟩
    installOk := fun _ => true
    enableOk := true
    startOk := true
    runningAfterStart := ⟨true, true⟩ }

/-- A search path on which only `spicy` resolves. -/
def lookSpicy : Str → Option Str :=
  fun s => if s = "spicy".data then some "/usr/bin/spicy".data else none

/-! ## Theorems -/

/-- The composite flag of `detectCore` is the conjunction of the three probe
outcomes, for each of the eight combinations. -/
theorem detectCore_ready (v i r : Bool) :
    (detectCore v i r).ClipboardReady = (v && i && r) := by
  revert v i r; decide

/-- `detectCore` never reports the agent running without reporting it
installed. -/
theorem detectCore_running_installed (v i r : Bool) :
    (detectCore v i r).AgentRunning = true → (detectCore v i r).AgentInstalled = true := by
  revert v i r; decide

/-- A status detected without the virtio port is not ready and reports the
port missing. -/
theorem detectCore_no_vport (i r : Bool) :
    (detectCore false i r).ClipboardReady = false ∧
      (detectCore false i r).VPortExists = false := by
  revert i r; decide

/-- C4: for every environment — hence for every combination of the three
sub-check outcomes in `{false,true}^3` — the composite `ClipboardReady`
field of the status returned by `DetectSpiceStatus` equals exactly the
conjunction of the transport, installed and running sub-checks. -/
theorem c4_ready_conjunction (env : Env) :
    (DetectSpiceStatus env).ClipboardReady =
      (checkVirtioPort env && checkSpiceInstalled env &&
        checkSpiceRunning env.running0) :=
  detectCore_ready _ _ _

/-- C10: in every status returned by the detector, a running agent implies
an installed agent: the running sub-check is only evaluated when the
installed sub-check succeeded. -/
theorem c10_running_implies_installed (env : Env) :
    (DetectSpiceStatus env).AgentRunning = true →
      (DetectSpiceStatus env).AgentInstalled = true :=
  detectCore_running_installed _ _ _

/-- Witness for C10 at the all-probes-true environment. -/
theorem c10_running_implies_installed_witness :
    (DetectSpiceStatus envReady).AgentRunning = true ∧
      (DetectSpiceStatus envReady).AgentInstalled = true :=
  ⟨by decide, c10_running_implies_installed envReady (by decide)⟩

/-- C3: the Host Display Session Controller lifecycle contract (modelled
from the spec, §4.5): `BringToForeground` before `Start` fails with
NotInitializedError; a successful `Start` yields a state with a session;
after the close transition there is no session and a second `Start` on the
same controller fails with AlreadyStartedError. -/
theorem c3_session_lifecycle :
    SessionController.bringToForeground DisplaySessionState.uninitialized =
      Except.error SessionError.notInitialized ∧
    SessionController.start DisplaySessionState.uninitialized =
      Except.ok DisplaySessionState.created ∧
    SessionController.hasSession DisplaySessionState.created = true ∧
    SessionController.hasSession
      (SessionController.close DisplaySessionState.visible) = false ∧
    SessionController.start (SessionController.close DisplaySessionState.visible) =
      Except.error SessionError.alreadyStarted := by
  decide

/-- C7: whenever the virtio transport is absent, `EnsureSpiceAgent` returns
the transport-absent error immediately with an empty action trace — no
install attempt, no enable and no start — regardless of the installed and
running probe outcomes. -/
theorem c7_transport_absent_immediate (env : Env)
    (h : checkVirtioPort env = false) :
    EnsureSpiceAgent env = (Except.error EnsureErr.transportAbsent, []) := by
  have h1 : (DetectSpiceStatus env).ClipboardReady = false := by
    unfold DetectSpiceStatus
    rw [h]
    exact (detectCore_no_vport _ _).1
  have h2 : (DetectSpiceStatus env).VPortExists = false := by
    unfold DetectSpiceStatus
    rw [h]
    exact (detectCore_no_vport _ _).2
  simp [EnsureSpiceAgent, h1, h2]

/-- Witness for C7: transport absent while the agent is installed and its
process probes report active. -/
theorem c7_transport_absent_immediate_witness :
    checkVirtioPort envNoTransport = false ∧
      EnsureSpiceAgent envNoTransport =
        (Except.error EnsureErr.transportAbsent, []) :=
  ⟨by decide, c7_transport_absent_immediate envNoTransport (by decide)⟩

/-- C8: `EnsureSpiceAgent` is idempotent in the ready state: when the
detector already reports ready it returns success with an empty action
trace, so a second call in the same state again returns success and the two
calls together perform no actions. -/
theorem c8_ensure_idempotent (env : Env)
    (h : (DetectSpiceStatus env).ClipboardReady = true) :
    EnsureSpiceAgent env = (Except.ok (), []) ∧
      (EnsureSpiceAgent env).2 ++ (EnsureSpiceAgent env).2 = [] := by
  constructor
  · simp [EnsureSpiceAgent, h]
  · simp [EnsureSpiceAgent, h]

/-- Witness for C8 at the all-probes-true environment. -/
theorem c8_ensure_idempotent_witness :
    (DetectSpiceStatus envReady).ClipboardReady = true ∧
      (EnsureSpiceAgent envReady = (Except.ok (), []) ∧
        (EnsureSpiceAgent envReady).2 ++ (EnsureSpiceAgent envReady).2 = []) :=
  ⟨by decide, c8_ensure_idempotent envReady (by decide)⟩

/-- The reason list and error message of `detectCore`, over the eight probe
combinations: message empty exactly when ready, message formed from the
accumulated reasons, each reason present iff its code-level guard holds
(the running reason is guarded by the agent being installed), and the
reasons appear in transport → installed → running order. -/
theorem detectCore_reason (v i r : Bool) :
    ((detectCore v i r).ErrorMessage = [] ↔ (detectCore v i r).ClipboardReady = true) ∧
    ((detectCore v i r).ErrorMessage =
      if (detectCore v i r).ClipboardReady then []
      else errPrefixStr ++ joinWith "; ".data (reasonsFor (detectCore v i r))) ∧
    (msgTransport ∈ reasonsFor (detectCore v i r) ↔
      (detectCore v i r).VPortExists = false) ∧
    (msgInstalled ∈ reasonsFor (detectCore v i r) ↔
      (detectCore v i r).AgentInstalled = false) ∧
    (msgRunning ∈ reasonsFor (detectCore v i r) ↔
      ((detectCore v i r).AgentInstalled = true ∧
        (detectCore v i r).AgentRunning = false)) ∧
    (reasonsFor (detectCore v i r)).Sublist [msgTransport, msgInstalled, msgRunning] := by
  revert v i r; decide

/-- Counterexample for C2: with the transport present and the agent neither
installed nor running, the detector's message names only the installed
deficiency — the running deficiency does not occur in it, contradicting the
claim that both are enumerated. -/
theorem c2_reason_enumeration_counterexample :
    (DetectSpiceStatus envAgentMissing).VPortExists = true ∧
    (DetectSpiceStatus envAgentMissing).AgentInstalled = false ∧
    (DetectSpiceStatus envAgentMissing).AgentRunning = false ∧
    (DetectSpiceStatus envAgentMissing).ClipboardReady = false ∧
    strContains msgRunning (DetectSpiceStatus envAgentMissing).ErrorMessage = false ∧
    (DetectSpiceStatus envAgentMissing).ErrorMessage = errPrefixStr ++ msgInstalled := by
  decide

/-- C2 (amended): in every detected status the message is non-empty exactly
when the composite verdict is false, it is the fixed header followed by the
accumulated reasons, the failing transport and installed sub-conditions are
always enumerated, the running deficiency is enumerated only when the agent
is installed, and the reasons keep the transport → installed → running
order. -/
theorem c2_reason_enumeration_amended (env : Env) :
    ((DetectSpiceStatus env).ErrorMessage = [] ↔
      (DetectSpiceStatus env).ClipboardReady = true) ∧
    ((DetectSpiceStatus env).ErrorMessage =
      if (DetectSpiceStatus env).ClipboardReady then []
      else errPrefixStr ++ joinWith "; ".data (reasonsFor (DetectSpiceStatus env))) ∧
    (msgTransport ∈ reasonsFor (DetectSpiceStatus env) ↔
      (DetectSpiceStatus env).VPortExists = false) ∧
    (msgInstalled ∈ reasonsFor (DetectSpiceStatus env) ↔
      (DetectSpiceStatus env).AgentInstalled = false) ∧
    (msgRunning ∈ reasonsFor (DetectSpiceStatus env) ↔
      ((DetectSpiceStatus env).AgentInstalled = true ∧
        (DetectSpiceStatus env).AgentRunning = false)) ∧
    (reasonsFor (DetectSpiceStatus env)).Sublist
      [msgTransport, msgInstalled, msgRunning] :=
  detectCore_reason _ _ _

/-- When every package manager in the list either fails to resolve or fails
to install, the loop attempts exactly the resolvable ones, in order, and
ends with the generic failure. -/
theorem installLoop_all_fail (env : Env) (l : List PkgMgr)
    (h : ∀ pm ∈ l, (env.lookPath pm.cmd && env.installOk pm.cmd) = false) :
    installLoop env l =
      (Except.error InstallErr.noManagerOrInstallFailed,
        (l.filter (fun pm => env.lookPath pm.cmd)).map
          (fun pm => Action.installAttempt pm.cmd)) := by
  induction l with
  | nil => rfl
  | cons pm rest ih =>
    have hpm := h pm (by simp)
    have hrest : ∀ q ∈ rest, (env.lookPath q.cmd && env.installOk q.cmd) = false :=
      fun q hq => h q (by simp [hq])
    cases hl : env.lookPath pm.cmd with
    | false => simp [installLoop, hl, ih hrest, List.filter_cons]
    | true =>
      have hok : env.installOk pm.cmd = false := by
        cases hok : env.installOk pm.cmd
        · rfl
        · rw [hl, hok] at hpm; exact absurd hpm (by simp)
      simp [installLoop, hl, hok, ih hrest, List.filter_cons]

/-- When every package manager before `pm` either fails to resolve or fails
to install, and `pm` resolves and installs successfully, the loop attempts
the earlier resolvable ones and then succeeds at `pm`. -/
theorem installLoop_first_success (env : Env) (l1 : List PkgMgr) (pm : PkgMgr)
    (l2 : List PkgMgr)
    (h1 : ∀ q ∈ l1, (env.lookPath q.cmd && env.installOk q.cmd) = false)
    (hl : env.lookPath pm.cmd = true) (hok : env.installOk pm.cmd = true) :
    installLoop env (l1 ++ pm :: l2) =
      (Except.ok (),
        (l1.filter (fun q => env.lookPath q.cmd)).map
          (fun q => Action.installAttempt q.cmd) ++ [Action.installAttempt pm.cmd]) := by
  induction l1 with
  | nil => simp [installLoop, hl, hok]
  | cons q rest ih =>
    have hq := h1 q (by simp)
    have hrest : ∀ q' ∈ rest, (env.lookPath q'.cmd && env.installOk q'.cmd) = false :=
      fun q' hq' => h1 q' (by simp [hq'])
    cases hql : env.lookPath q.cmd with
    | false => simp [installLoop, hql, ih hrest, List.filter_cons]
    | true =>
      have hqok : env.installOk q.cmd = false := by
        cases hqok : env.installOk q.cmd
        · rfl
        · rw [hql, hqok] at hq; exact absurd hq (by simp)
      simp [installLoop, hql, hqok, ih hrest, List.filter_cons]

/-- A status detected with the installed probe false: not ready, installed
reported false, port reported as probed. -/
theorem detectCore_not_installed (v r : Bool) :
    (detectCore v false r).ClipboardReady = false ∧
      (detectCore v false r).AgentInstalled = false ∧
      (detectCore v false r).VPortExists = v := by
  revert v r; decide

/-- Counterexample for C1: with `apt-get` resolving but failing to install
and `dnf` resolving and succeeding, the first resolvable strategy is *not*
used exclusively — the loop goes on to attempt `dnf` after `apt-get`'s
install step fails — and the install failure is not returned to the caller:
both `installSpiceAgent` and `EnsureSpiceAgent` report success. -/
theorem c1_install_exclusive_counterexample :
    envInstallFallback.lookPath "apt-get".data = true ∧
    envInstallFallback.installOk "apt-get".data = false ∧
    (DetectSpiceStatus envInstallFallback).VPortExists = true ∧
    (DetectSpiceStatus envInstallFallback).AgentInstalled = false ∧
    installSpiceAgent envInstallFallback =
      (Except.ok (),
        [Action.installAttempt "apt-get".data, Action.installAttempt "dnf".data]) ∧
    (EnsureSpiceAgent envInstallFallback).1 = Except.ok () := by
  decide

/-- C1 (amended): when the agent is not installed, installation walks the
ordered package-manager table, attempting every strategy whose probe
executable resolves: an install-step failure falls through to the next
strategy instead of aborting; the first strategy that both resolves and
installs successfully ends the walk; only when no strategy succeeds does
`EnsureSpiceAgent` surface the generic install failure, after attempting
every resolvable strategy. -/
theorem c1_install_fallback_amended (env : Env) :
    ((∀ pm ∈ packageManagers, (env.lookPath pm.cmd && env.installOk pm.cmd) = false) →
      installSpiceAgent env =
        (Except.error InstallErr.noManagerOrInstallFailed,
          (packageManagers.filter (fun pm => env.lookPath pm.cmd)).map
            (fun pm => Action.installAttempt pm.cmd))) ∧
    (∀ l1 pm l2, packageManagers = l1 ++ pm :: l2 →
      (∀ q ∈ l1, (env.lookPath q.cmd && env.installOk q.cmd) = false) →
      env.lookPath pm.cmd = true → env.installOk pm.cmd = true →
      installSpiceAgent env =
        (Except.ok (),
          (l1.filter (fun q => env.lookPath q.cmd)).map
            (fun q => Action.installAttempt q.cmd) ++ [Action.installAttempt pm.cmd])) ∧
    (checkVirtioPort env = true → checkSpiceInstalled env = false →
      (∀ pm ∈ packageManagers, (env.lookPath pm.cmd && env.installOk pm.cmd) = false) →
      EnsureSpiceAgent env =
        (Except.error (EnsureErr.installFailed InstallErr.noManagerOrInstallFailed),
          (packageManagers.filter (fun pm => env.lookPath pm.cmd)).map
            (fun pm => Action.installAttempt pm.cmd))) := by
  refine ⟨fun h => installLoop_all_fail env packageManagers h, ?_, ?_⟩
  · intro l1 pm l2 hsplit h1 hl hok
    show installLoop env packageManagers = _
    rw [hsplit]
    exact installLoop_first_success env l1 pm l2 h1 hl hok
  · intro hv hi hall
    have hready : (DetectSpiceStatus env).ClipboardReady = false := by
      unfold DetectSpiceStatus; rw [hi]; exact (detectCore_not_installed _ _).1
    have hinst : (DetectSpiceStatus env).AgentInstalled = false := by
      unfold DetectSpiceStatus; rw [hi]; exact (detectCore_not_installed _ _).2.1
    have hvp : (DetectSpiceStatus env).VPortExists = true := by
      unfold DetectSpiceStatus; rw [hi, hv]; exact (detectCore_not_installed _ _).2.2
    have hinstall : installSpiceAgent env =
        (Except.error InstallErr.noManagerOrInstallFailed,
          (packageManagers.filter (fun pm => env.lookPath pm.cmd)).map
            (fun pm => Action.installAttempt pm.cmd)) :=
      installLoop_all_fail env packageManagers hall
    simp [EnsureSpiceAgent, hready, hinst, hvp, hinstall]

/-- Witness for C1 (amended), at the environment in which `apt-get` resolves
but fails and `dnf` resolves and succeeds: the walk attempts `apt-get`, then
succeeds at `dnf`. -/
theorem c1_install_fallback_amended_witness :
    (packageManagers = packageManagers.take 1 ++
      (⟨"dnf".data, ["install".data, "-y".data], "spice-vdagent".data⟩ : PkgMgr) ::
        packageManagers.drop 2) ∧
    (∀ q ∈ packageManagers.take 1,
      (envInstallFallback.lookPath q.cmd && envInstallFallback.installOk q.cmd) = false) ∧
    envInstallFallback.lookPath "dnf".data = true ∧
    envInstallFallback.installOk "dnf".data = true ∧
    installSpiceAgent envInstallFallback =
      (Except.ok (),
        ((packageManagers.take 1).filter
            (fun q => envInstallFallback.lookPath q.cmd)).map
          (fun q => Action.installAttempt q.cmd) ++
            [Action.installAttempt "dnf".data]) :=
  ⟨by decide, by decide, by decide, by decide,
    (c1_install_fallback_amended envInstallFallback).2.1
      (packageManagers.take 1)
      ⟨"dnf".data, ["install".data, "-y".data], "spice-vdagent".data⟩
      (packageManagers.drop 2)
      (by decide) (by decide) (by decide) (by decide)⟩

/-- Any string is a prefix of itself followed by anything. -/
theorem isPrefixOf_append_self (a b : Str) : a.isPrefixOf (a ++ b) = true := by
  induction a with
  | nil => simp [List.isPrefixOf]
  | cons c cs ih => simp [List.isPrefixOf, ih]

/-- `trimPrefixStr` inverts appending the prefix. -/
theorem trimPrefixStr_append (a b : Str) : trimPrefixStr (a ++ b) a = b := by
  rw [trimPrefixStr, isPrefixOf_append_self]
  simp [List.drop_left]

/-- C5: for every non-empty socket path `p`, parsing the unix-socket display
string `spice+unix://` + `p` yields a descriptor whose `UnixPath` is `p`,
and `buildSpiceURI` of that descriptor reproduces the original display
string. -/
theorem c5_unix_roundtrip (p : Str) (hp : p ≠ []) :
    GetConnectionInfo (unixSchemeStr ++ p) =
      Except.ok { emptyConn with UnixPath := p } ∧
    buildSpiceURI { emptyConn with UnixPath := p } =
      Except.ok (unixSchemeStr ++ p) := by
  constructor
  · rw [GetConnectionInfo, isPrefixOf_append_self]
    simp [trimPrefixStr_append]
  · simp [buildSpiceURI, emptyConn, hp]

/-- Witness for C5 at the path `/p`: round-trips to `spice+unix:///p`. -/
theorem c5_unix_roundtrip_witness :
    ("/p".data ≠ ([] : Str)) ∧
    (GetConnectionInfo (unixSchemeStr ++ "/p".data) =
        Except.ok { emptyConn with UnixPath := "/p".data } ∧
      buildSpiceURI { emptyConn with UnixPath := "/p".data } =
        Except.ok (unixSchemeStr ++ "/p".data)) :=
  ⟨by decide, c5_unix_roundtrip "/p".data (by decide)⟩

/-- A part that does not carry the `addr` key leaves the host unchanged. -/
theorem applyOpt_host_of_no_addr (c : Connection) (part : Str)
    (h : partKey part ≠ some "addr".data) : (applyOpt c part).Host = c.Host := by
  rw [applyOpt]
  rw [partKey] at h
  by_cases h0 : part = spiceTokStr
  · simp [h0]
  · simp only [if_neg h0] at h ⊢
    cases hs : splitN2 part '=' with
    | none => simp
    | some kv =>
      simp [hs] at h
      by_cases hp : trimSpace kv.1 = "port".data
      · simp [hp]
      · by_cases hw : trimSpace kv.1 = "password".data
        · simp [hp, h, hw]
        · simp [hp, h, hw]

/-- A part that does not carry the `port` key leaves the port unchanged. -/
theorem applyOpt_port_of_no_port (c : Connection) (part : Str)
    (h : partKey part ≠ some "port".data) : (applyOpt c part).Port = c.Port := by
  rw [applyOpt]
  rw [partKey] at h
  by_cases h0 : part = spiceTokStr
  · simp [h0]
  · simp only [if_neg h0] at h ⊢
    cases hs : splitN2 part '=' with
    | none => simp
    | some kv =>
      simp [hs] at h
      by_cases ha : trimSpace kv.1 = "addr".data
      · simp [h, ha]
      · by_cases hw : trimSpace kv.1 = "password".data
        · simp [h, ha, hw]
        · simp [h, ha, hw]

/-- A part carrying the `addr` key sets the host to the part's value. -/
theorem applyOpt_host_set (c : Connection) (part : Str) (v : Str)
    (hk : partKey part = some "addr".data) (hv : partVal part = some v) :
    (applyOpt c part).Host = v := by
  rw [partKey] at hk
  rw [partVal] at hv
  by_cases h0 : part = spiceTokStr
  · simp [h0] at hk
  · simp only [if_neg h0] at hk hv
    cases hs : splitN2 part '=' with
    | none => simp [hs] at hk
    | some kv =>
      simp [hs] at hk hv
      rw [applyOpt]
      simp only [if_neg h0, hs]
      have hne : trimSpace kv.1 ≠ "port".data := by rw [hk]; decide
      simp [hne, hk, hv]

/-- A part carrying the `port` key sets the port to the part's value. -/
theorem applyOpt_port_set (c : Connection) (part : Str) (v : Str)
    (hk : partKey part = some "port".data) (hv : partVal part = some v) :
    (applyOpt c part).Port = v := by
  rw [partKey] at hk
  rw [partVal] at hv
  by_cases h0 : part = spiceTokStr
  · simp [h0] at hk
  · simp only [if_neg h0] at hk hv
    cases hs : splitN2 part '=' with
    | none => simp [hs] at hk
    | some kv =>
      simp [hs] at hk hv
      rw [applyOpt]
      simp only [if_neg h0, hs]
      simp [hk, hv]

/-- The option loop leaves the host unchanged when no part carries the
`addr` key. -/
theorem applyOpts_host_of_no_addr (parts : List Str) (c : Connection)
    (h : ∀ part ∈ parts, partKey part ≠ some "addr".data) :
    (applyOpts c parts).Host = c.Host := by
  induction parts generalizing c with
  | nil => rfl
  | cons p ps ih =>
    have htail : (applyOpts (applyOpt c p) ps).Host = (applyOpt c p).Host :=
      ih (applyOpt c p) (fun q hq => h q (by simp [hq]))
    calc (applyOpts c (p :: ps)).Host
        = (applyOpts (applyOpt c p) ps).Host := rfl
      _ = (applyOpt c p).Host := htail
      _ = c.Host := applyOpt_host_of_no_addr c p (h p (by simp))

/-- The option loop leaves the port unchanged when no part carries the
`port` key. -/
theorem applyOpts_port_of_no_port (parts : List Str) (c : Connection)
    (h : ∀ part ∈ parts, partKey part ≠ some "port".data) :
    (applyOpts c parts).Port = c.Port := by
  induction parts generalizing c with
  | nil => rfl
  | cons p ps ih =>
    have htail : (applyOpts (applyOpt c p) ps).Port = (applyOpt c p).Port :=
      ih (applyOpt c p) (fun q hq => h q (by simp [hq]))
    calc (applyOpts c (p :: ps)).Port
        = (applyOpts (applyOpt c p) ps).Port := rfl
      _ = (applyOpt c p).Port := htail
      _ = c.Port := applyOpt_port_of_no_port c p (h p (by simp))

/-- C6: for every display string starting with the protocol token (and not
the unix-socket scheme), parsing succeeds; when no comma-separated part
carries the `addr` (resp. `port`) key the host (resp. port) is the loopback
default `127.0.0.1` (resp. `5900`); and when a part carries the key — with
no later part re-assigning it — the host (resp. port) is that part's
value. -/
theorem c6_tcp_defaults_and_values (s : Str)
    (h1 : spiceTokStr.isPrefixOf s = true)
    (h2 : unixSchemeStr.isPrefixOf s = false) :
    ∃ c, GetConnectionInfo s = Except.ok c ∧
      ((∀ part ∈ s.splitOn ',', partKey part ≠ some "addr".data) →
        c.Host = defaultHost) ∧
      ((∀ part ∈ s.splitOn ',', partKey part ≠ some "port".data) →
        c.Port = defaultPort) ∧
      (∀ l1 part l2 v, s.splitOn ',' = l1 ++ part :: l2 →
        partKey part = some "addr".data → partVal part = some v →
        (∀ q ∈ l2, partKey q ≠ some "addr".data) → c.Host = v) ∧
      (∀ l1 part l2 v, s.splitOn ',' = l1 ++ part :: l2 →
        partKey part = some "port".data → partVal part = some v →
        (∀ q ∈ l2, partKey q ≠ some "port".data) → c.Port = v) := by
  refine ⟨applyOpts { emptyConn with Host := defaultHost, Port := defaultPort }
    (s.splitOn ','), ?_, ?_, ?_, ?_, ?_⟩
  · simp [GetConnectionInfo, h1, h2]
  · intro h
    exact (applyOpts_host_of_no_addr _ _ h).trans rfl
  · intro h
    exact (applyOpts_port_of_no_port _ _ h).trans rfl
  · intro l1 part l2 v hsplit hk hv hno
    rw [hsplit, applyOpts, List.foldl_append, List.foldl_cons]
    calc (List.foldl applyOpt
            (applyOpt (List.foldl applyOpt
              { emptyConn with Host := defaultHost, Port := defaultPort } l1) part)
            l2).Host
        = (applyOpt (List.foldl applyOpt
            { emptyConn with Host := defaultHost, Port := defaultPort } l1) part).Host :=
          applyOpts_host_of_no_addr l2 _ hno
      _ = v := applyOpt_host_set _ _ _ hk hv
  · intro l1 part l2 v hsplit hk hv hno
    rw [hsplit, applyOpts, List.foldl_append, List.foldl_cons]
    calc (List.foldl applyOpt
            (applyOpt (List.foldl applyOpt
              { emptyConn with Host := defaultHost, Port := defaultPort } l1) part)
            l2).Port
        = (applyOpt (List.foldl applyOpt
            { emptyConn with Host := defaultHost, Port := defaultPort } l1) part).Port :=
          applyOpts_port_of_no_port l2 _ hno
      _ = v := applyOpt_port_set _ _ _ hk hv

/-- Witness for C6 at the scenario string `spice,addr=0.0.0.0,port=5931`. -/
theorem c6_tcp_defaults_and_values_witness :
    spiceTokStr.isPrefixOf scenarioStr = true ∧
    unixSchemeStr.isPrefixOf scenarioStr = false ∧
    (∃ c, GetConnectionInfo scenarioStr = Except.ok c ∧
      ((∀ part ∈ scenarioStr.splitOn ',', partKey part ≠ some "addr".data) →
        c.Host = defaultHost) ∧
      ((∀ part ∈ scenarioStr.splitOn ',', partKey part ≠ some "port".data) →
        c.Port = defaultPort) ∧
      (∀ l1 part l2 v, scenarioStr.splitOn ',' = l1 ++ part :: l2 →
        partKey part = some "addr".data → partVal part = some v →
        (∀ q ∈ l2, partKey q ≠ some "addr".data) → c.Host = v) ∧
      (∀ l1 part l2 v, scenarioStr.splitOn ',' = l1 ++ part :: l2 →
        partKey part = some "port".data → partVal part = some v →
        (∀ q ∈ l2, partKey q ≠ some "port".data) → c.Port = v)) ∧
    GetConnectionInfo scenarioStr =
      Except.ok { emptyConn with Host := "0.0.0.0".data, Port := "5931".data } :=
  ⟨by decide, by decide,
    c6_tcp_defaults_and_values scenarioStr (by decide) (by decide),
    by decide⟩

/-- The candidate loop returns the not-found error when no candidate
resolves. -/
theorem findLoop_all_none (look : Str → Option Str) (l : List Str)
    (h : ∀ c ∈ l, look c = none) : findLoop look l = Except.error notFoundMsg := by
  induction l with
  | nil => rfl
  | cons c rest ih =>
    have hc := h c (by simp)
    have hrest : ∀ q ∈ rest, look q = none := fun q hq => h q (by simp [hq])
    simp [findLoop, hc, ih hrest]

/-- The candidate loop returns the resolved path of the first resolvable
candidate, however many earlier candidates failed to resolve. -/
theorem findLoop_first_found (look : Str → Option Str) (l1 : List Str) (c : Str)
    (l2 : List Str) (p : Str) (h1 : ∀ q ∈ l1, look q = none)
    (hc : look c = some p) : findLoop look (l1 ++ c :: l2) = Except.ok p := by
  induction l1 with
  | nil => simp [findLoop, hc]
  | cons q rest ih =>
    have hq := h1 q (by simp)
    have hrest : ∀ q' ∈ rest, look q' = none := fun q' hq' => h1 q' (by simp [hq'])
    simp [findLoop, hq, ih hrest]

/-- C9: on every supported platform, `FindViewer` returns the resolved path
of the first candidate in the platform's ordered list that resolves on the
search path — earlier lookup failures never abort the search — and it
returns the not-found error (whose text carries the install hints) only when
every candidate in the list failed to resolve. -/
theorem c9_viewer_first_resolvable (goos : Str) (cs : List Str)
    (look : Str → Option Str) (hcs : viewerCandidates goos = some cs) :
    ((∀ c ∈ cs, look c = none) →
      FindViewer goos look = Except.error notFoundMsg) ∧
    (∀ l1 c l2 p, cs = l1 ++ c :: l2 → (∀ q ∈ l1, look q = none) →
      look c = some p → FindViewer goos look = Except.ok p) := by
  constructor
  · intro h
    rw [FindViewer, hcs]
    exact findLoop_all_none look cs h
  · intro l1 c l2 p hsplit h1 hc
    rw [FindViewer, hcs, hsplit]
    exact findLoop_first_found look l1 c l2 p h1 hc

/-- Witness for C9 on linux with only `spicy` resolvable: `remote-viewer`
fails to resolve first, and the search still returns `spicy`'s path. -/
theorem c9_viewer_first_resolvable_witness :
    viewerCandidates "linux".data =
      some ["remote-viewer".data, "spicy".data, "virt-viewer".data] ∧
    (["remote-viewer".data, "spicy".data, "virt-viewer".data] =
      ["remote-viewer".data] ++ "spicy".data :: ["virt-viewer".data]) ∧
    (∀ q ∈ ["remote-viewer".data], lookSpicy q = none) ∧
    lookSpicy "spicy".data = some "/usr/bin/spicy".data ∧
    FindViewer "linux".data lookSpicy = Except.ok "/usr/bin/spicy".data :=
  ⟨by decide, by decide, by decide, by decide,
    (c9_viewer_first_resolvable "linux".data
        ["remote-viewer".data, "spicy".data, "virt-viewer".data] lookSpicy
        (by decide)).2
      ["remote-viewer".data] "spicy".data ["virt-viewer".data]
      "/usr/bin/spicy".data (by decide) (by decide) (by decide)⟩

end Lima
